import Mathlib

/-!
# Verification of the FatSecret Token-Auth proxy (src/index.js)

Shallow embedding of the token-cache / OAuth refresh logic and the
per-endpoint request forwarders of `src/index.js`.  Times are epoch
milliseconds (`Date.now()`), modelled as `Int`.  Network effects are made
explicit: each model function takes the environment's would-be responses as
arguments and reports how many OAuth calls it made and which upstream REST
call (if any) it issued.
-/

namespace TokenAuthProxy

/-- The process-wide token cache: `let cachedToken = null; let tokenExpiresAt = 0;`.
`cachedToken = none` models the initial `null`. -/
structure TokenCache where
  cachedToken : Option String
  tokenExpiresAt : Int
deriving Repr, DecidableEq

/-- The initial cache state at process start. -/
def TokenCache.initial : TokenCache := ⟨none, 0⟩

/-- JS truthiness of the `cachedToken` variable: `null` (here `none`) and the
empty string are falsy, every other string is truthy. -/
def truthyStr : Option String → Bool
  | none => false
  | some s => s ≠ ""

/-- `response.ok` of node-fetch: status in the inclusive-exclusive range [200, 300). -/
def responseOk (status : Nat) : Bool := 200 ≤ status && status < 300

/-- The OAuth token endpoint's would-be response to the proxy's POST:
HTTP status, the body as text (read via `response.text()` on the error path),
and the `access_token` / `expires_in` fields parsed from the JSON body
(read via `response.json()` on the success path). -/
structure OAuthResponse where
  status : Nat
  errText : String
  access_token : String
  expires_in : Int
deriving Repr, DecidableEq

/-- Result of one `getAccessToken()` call: the returned token or the thrown
error message, the cache state after the call, and how many OAuth network
calls (fetches of `OAUTH_URL`) were made. -/
structure TokenFetch where
  result : Except String String
  cache : TokenCache
  oauthCalls : Nat
deriving Repr

/-- `getAccessToken()` of src/index.js:25-53.  If the cached token is truthy
and `now < tokenExpiresAt`, it is returned with no network call.  Otherwise
one POST to the OAuth endpoint is made; on a non-ok status the function
throws `Failed to fetch token: <status> <errText>` leaving the cache
untouched, and on an ok status it stores `access_token` with expiry
`now + expires_in * 1000 - 10000` (a 10-second safety margin) and returns it. -/
def getAccessToken (st : TokenCache) (now : Int) (oauth : OAuthResponse) : TokenFetch :=
  if truthyStr st.cachedToken && decide (now < st.tokenExpiresAt) then
    { result := .ok (st.cachedToken.getD ""), cache := st, oauthCalls := 0 }
  else if responseOk oauth.status then
    { result := .ok oauth.access_token
      cache := { cachedToken := some oauth.access_token
                 tokenExpiresAt := now + oauth.expires_in * 1000 - 10000 }
      oauthCalls := 1 }
  else
    { result := .error ("Failed to fetch token: " ++ toString oauth.status ++ " " ++ oauth.errText)
      cache := st
      oauthCalls := 1 }

/-- A JavaScript value occurring in a JSON request body (for the POST
endpoints, whose required field is checked with `typeof ... !== 'string'`).
`obj` stands opaquely for any (non-null) object or array. -/
inductive JsValue where
  | str (s : String)
  | num (n : Int)
  | boolean (b : Bool)
  | nullv
  | obj
deriving Repr, DecidableEq

/-- JS truthiness of a possibly-undefined body field (`none` = `undefined`). -/
def jsTruthy : Option JsValue → Bool
  | none => false
  | some (.str s) => s ≠ ""
  | some (.num n) => n ≠ 0
  | some (.boolean b) => b
  | some .nullv => false
  | some .obj => true

/-- `typeof v === 'string'` for a possibly-undefined body field. -/
def isStringVal : Option JsValue → Bool
  | some (.str _) => true
  | _ => false

/-- Value of a list of decimal digit characters, most significant first. -/
def digitsToNat (cs : List Char) : Nat :=
  cs.foldl (fun acc ch => 10 * acc + (ch.toNat - '0'.toNat)) 0

/-- JS `Number()` applied to a query-string value, modelled on optionally
sign-prefixed decimal integer literals (the domain the claims quantify over):
`""` coerces to `0`, a digit string to its value, `-` followed by digits to
the negated value; every other string is NaN, modelled as `none`.  Decimal,
exponent and hex syntaxes are outside the model. -/
def jsNumber? (s : String) : Option Int :=
  if s = "" then some 0
  else if s.data.all Char.isDigit then some (Int.ofNat (digitsToNat s.data))
  else
    match s.data with
    | '-' :: rest =>
      if rest ≠ [] ∧ rest.all Char.isDigit then some (-(Int.ofNat (digitsToNat rest)))
      else none
    | _ => none

/-- The pattern `Number(x) || d` where `x` is a destructured query parameter
with (non-zero) numeric default `d`: an omitted parameter keeps the default,
and a NaN or zero coercion falls back to `d` because both are falsy. -/
def numberOrDefault (v : Option String) (d : Int) : Int :=
  match v with
  | none => d
  | some s =>
    match jsNumber? s with
    | none => d
    | some n => if n = 0 then d else n

/-- What the upstream FatSecret REST fetch would produce if issued: a parsed
JSON response with its HTTP status (the body kept opaque as a string), or a
thrown exception (network failure, JSON parse failure). -/
inductive UpstreamResult where
  | ok (status : Nat) (data : String)
  | exn (err : String)
deriving Repr, DecidableEq

/-- The outbound REST call a handler issues: the path under
`https://platform.fatsecret.com/rest/`, the query parameters set on the URL
(GET endpoints), and the JSON body fields (POST endpoints). -/
structure UpstreamRequest where
  path : String
  params : List (String × String) := []
  jsonBody : List (String × JsValue) := []
deriving Repr, DecidableEq

/-- The environment one inbound request runs against: the current time and
the would-be responses of the OAuth endpoint and the upstream REST API. -/
structure Env where
  now : Int
  oauth : OAuthResponse
  upstream : UpstreamResult
deriving Repr, DecidableEq

/-- The `Object.entries(query).forEach` loop of `fatsecretRestRequest`:
`url.searchParams.set(key, String(value))` is applied to every entry whose
value is not `undefined`; `undefined` entries are dropped. -/
def setDefinedParams (query : List (String × Option String)) : List (String × String) :=
  query.filterMap fun kv => kv.2.map (fun v => (kv.1, v))

/-- `JSON.stringify` of an object literal: properties whose value is
`undefined` are omitted from the serialized body. -/
def jsonStringifyFields (fields : List (String × Option JsValue)) : List (String × JsValue) :=
  fields.filterMap fun kv => kv.2.map (fun v => (kv.1, v))

/-- Result of one `fatsecretRestRequest` call: the `{ status, data }` value or
the propagated exception, the cache state afterwards, the number of OAuth
calls made, and the upstream REST call issued (if reached). -/
structure RestOutcome where
  result : Except String (Nat × String)
  cache : TokenCache
  oauthCalls : Nat
  call : Option UpstreamRequest
deriving Repr

/-- `fatsecretRestRequest(path, query)` of src/index.js:55-73: obtain a token
via `getAccessToken` (an exception propagates before any REST call), build
the URL with every defined query parameter, issue the bearer-authenticated
fetch, and return `{ status, data }` without inspecting `response.ok`; a
fetch/parse exception propagates to the caller. -/
def fatsecretRestRequest (st : TokenCache) (env : Env) (path : String)
    (query : List (String × Option String)) : RestOutcome :=
  let tf := getAccessToken st env.now env.oauth
  match tf.result with
  | .error e => { result := .error e, cache := tf.cache, oauthCalls := tf.oauthCalls, call := none }
  | .ok _token =>
    let req : UpstreamRequest := { path := path, params := setDefinedParams query }
    match env.upstream with
    | .ok status data =>
      { result := .ok (status, data), cache := tf.cache, oauthCalls := tf.oauthCalls,
        call := some req }
    | .exn e =>
      { result := .error e, cache := tf.cache, oauthCalls := tf.oauthCalls, call := some req }

/-- The response an endpoint handler sends: the relayed upstream JSON body,
or an `{ error: ... }` object built by the handler itself. -/
inductive ResponseBody where
  | json (data : String)
  | errorObj (error : String)
deriving Repr, DecidableEq

/-- One complete handler run: HTTP status and body sent to the client, final
cache state, number of OAuth calls, the upstream call issued (if any), and
what was logged via `console.error` (if anything). -/
structure HandlerRun where
  status : Nat
  body : ResponseBody
  cache : TokenCache
  oauthCalls : Nat
  call : Option UpstreamRequest
  logged : Option String
deriving Repr, DecidableEq

/-- An early `res.status(400).json({ error: msg })` return: no token is
obtained and no outbound call is made. -/
def reject400 (st : TokenCache) (msg : String) : HandlerRun :=
  { status := 400, body := .errorObj msg, cache := st, oauthCalls := 0,
    call := none, logged := none }

/-- The `try { ... fatsecretRestRequest ... } catch` block shared by every GET
handler: on success relay the upstream status and body verbatim; on any
exception log it and respond 500 with the handler's fixed generic message. -/
def restTryBlock (st : TokenCache) (env : Env) (path : String)
    (query : List (String × Option String)) (genericError : String) : HandlerRun :=
  let out := fatsecretRestRequest st env path query
  match out.result with
  | .ok sd =>
    { status := sd.1, body := .json sd.2, cache := out.cache,
      oauthCalls := out.oauthCalls, call := out.call, logged := none }
  | .error e =>
    { status := 500, body := .errorObj genericError, cache := out.cache,
      oauthCalls := out.oauthCalls, call := out.call, logged := some e }

/-- The `try { getAccessToken(); fetch(POST) ... } catch` block shared by the
two POST handlers (`/nlp`, `/image-recognition`): a JSON body is sent instead
of query parameters, and the upstream status and body are relayed verbatim. -/
def postTryBlock (st : TokenCache) (env : Env) (path : String)
    (bodyFields : List (String × Option JsValue)) (genericError : String) : HandlerRun :=
  let tf := getAccessToken st env.now env.oauth
  match tf.result with
  | .error e =>
    { status := 500, body := .errorObj genericError, cache := tf.cache,
      oauthCalls := tf.oauthCalls, call := none, logged := some e }
  | .ok _token =>
    let call : UpstreamRequest := { path := path, jsonBody := jsonStringifyFields bodyFields }
    match env.upstream with
    | .ok status data =>
      { status := status, body := .json data, cache := tf.cache,
        oauthCalls := tf.oauthCalls, call := some call, logged := none }
    | .exn e =>
      { status := 500, body := .errorObj genericError, cache := tf.cache,
        oauthCalls := tf.oauthCalls, call := some call, logged := some e }

/-- Query parameters of `GET /search-foods` (src/index.js:75-114); `none`
models an omitted parameter. -/
structure SearchFoodsReq where
  q : Option String := none
  page : Option String := none
  max_results : Option String := none
  include_sub_categories : Option String := none
  include_food_images : Option String := none
  include_food_attributes : Option String := none
  flag_default_serving : Option String := none
  region : Option String := none
  language : Option String := none
  format : Option String := none
deriving Repr, DecidableEq

/-- Handler of `GET /search-foods`: 400 on a falsy `q`, otherwise cap
`max_results` at 50 (default 20) and proxy to `foods/search/v3` with `page`
defaulting to 0 and `format` to `json`. -/
def searchFoodsHandler (st : TokenCache) (env : Env) (req : SearchFoodsReq) : HandlerRun :=
  if ¬ truthyStr req.q then reject400 st "Missing search query (?q=)"
  else
    let cappedMaxResults := min (numberOrDefault req.max_results 20) 50
    restTryBlock st env "foods/search/v3"
      [("search_expression", req.q),
       ("page_number", some (req.page.getD "0")),
       ("max_results", some (toString cappedMaxResults)),
       ("include_sub_categories", req.include_sub_categories),
       ("include_food_images", req.include_food_images),
       ("include_food_attributes", req.include_food_attributes),
       ("flag_default_serving", req.flag_default_serving),
       ("region", req.region),
       ("language", req.language),
       ("format", some (req.format.getD "json"))]
      "Internal error while searching foods"

/-- Query parameters of `GET /autocomplete-foods` (src/index.js:116-143). -/
structure AutocompleteFoodsReq where
  q : Option String := none
  max_results : Option String := none
  region : Option String := none
  format : Option String := none
deriving Repr, DecidableEq

/-- Handler of `GET /autocomplete-foods`: 400 on a falsy `q`, otherwise cap
`max_results` at 10 (default 4) and proxy to `food/autocomplete/v2`. -/
def autocompleteFoodsHandler (st : TokenCache) (env : Env) (req : AutocompleteFoodsReq) :
    HandlerRun :=
  if ¬ truthyStr req.q then reject400 st "Missing query (?q=)"
  else
    let cappedMaxResults := min (numberOrDefault req.max_results 4) 10
    restTryBlock st env "food/autocomplete/v2"
      [("expression", req.q),
       ("max_results", some (toString cappedMaxResults)),
       ("region", req.region),
       ("format", some (req.format.getD "json"))]
      "Internal error while autocompleting foods"

/-- Query parameters of `GET /find-food-by-barcode` (src/index.js:145-170). -/
structure FindFoodByBarcodeReq where
  barcode : Option String := none
  region : Option String := none
  language : Option String := none
  format : Option String := none
deriving Repr, DecidableEq

/-- Handler of `GET /find-food-by-barcode`: 400 when `barcode` is falsy or its
string length differs from 13 (no digit check), otherwise proxy to
`food/barcode/find-by-id/v1`. -/
def findFoodByBarcodeHandler (st : TokenCache) (env : Env) (req : FindFoodByBarcodeReq) :
    HandlerRun :=
  if ¬ truthyStr req.barcode ∨ (req.barcode.getD "").length ≠ 13 then
    reject400 st "Missing or invalid 13-digit barcode (?barcode=)"
  else
    restTryBlock st env "food/barcode/find-by-id/v1"
      [("barcode", req.barcode),
       ("region", req.region),
       ("language", req.language),
       ("format", some (req.format.getD "json"))]
      "Internal error while finding food by barcode"

/-- Query parameters of `GET /food-details` (src/index.js:172-205). -/
structure FoodDetailsReq where
  id : Option String := none
  format : Option String := none
  include_sub_categories : Option String := none
  include_food_images : Option String := none
  include_food_attributes : Option String := none
  flag_default_serving : Option String := none
  region : Option String := none
  language : Option String := none
deriving Repr, DecidableEq

/-- Handler of `GET /food-details`: 400 on a falsy `id`, otherwise proxy to
`food/v4` with `id` renamed to `food_id`. -/
def foodDetailsHandler (st : TokenCache) (env : Env) (req : FoodDetailsReq) : HandlerRun :=
  if ¬ truthyStr req.id then reject400 st "Missing food id (?id=)"
  else
    restTryBlock st env "food/v4"
      [("food_id", req.id),
       ("format", some (req.format.getD "json")),
       ("include_sub_categories", req.include_sub_categories),
       ("include_food_images", req.include_food_images),
       ("include_food_attributes", req.include_food_attributes),
       ("flag_default_serving", req.flag_default_serving),
       ("region", req.region),
       ("language", req.language)]
      "Internal error while getting food details"

/-- Query parameters of `GET /food-brands` (src/index.js:207-234). -/
structure FoodBrandsReq where
  starts_with : Option String := none
  brand_type : Option String := none
  region : Option String := none
  language : Option String := none
  format : Option String := none
deriving Repr, DecidableEq

/-- Handler of `GET /food-brands`: 400 on a falsy `starts_with`, otherwise
proxy to `brands/v2`. -/
def foodBrandsHandler (st : TokenCache) (env : Env) (req : FoodBrandsReq) : HandlerRun :=
  if ¬ truthyStr req.starts_with then reject400 st "Missing required parameter (?starts_with=)"
  else
    restTryBlock st env "brands/v2"
      [("starts_with", req.starts_with),
       ("brand_type", req.brand_type),
       ("region", req.region),
       ("language", req.language),
       ("format", some (req.format.getD "json"))]
      "Internal error while fetching food brands"

/-- Query parameters of `GET /food-categories` (src/index.js:236-255). -/
structure FoodCategoriesReq where
  region : Option String := none
  language : Option String := none
  format : Option String := none
deriving Repr, DecidableEq

/-- Handler of `GET /food-categories`: no required parameter; proxy to
`food-categories/v2`. -/
def foodCategoriesHandler (st : TokenCache) (env : Env) (req : FoodCategoriesReq) : HandlerRun :=
  restTryBlock st env "food-categories/v2"
    [("region", req.region),
     ("language", req.language),
     ("format", some (req.format.getD "json"))]
    "Internal error while fetching food categories"

/-- Query parameters of `GET /food-sub-categories` (src/index.js:257-282). -/
structure FoodSubCategoriesReq where
  food_category_id : Option String := none
  region : Option String := none
  language : Option String := none
  format : Option String := none
deriving Repr, DecidableEq

/-- Handler of `GET /food-sub-categories`: 400 on a falsy `food_category_id`,
otherwise proxy to `food-sub-categories/v2`. -/
def foodSubCategoriesHandler (st : TokenCache) (env : Env) (req : FoodSubCategoriesReq) :
    HandlerRun :=
  if ¬ truthyStr req.food_category_id then
    reject400 st "Missing required parameter (?food_category_id=)"
  else
    restTryBlock st env "food-sub-categories/v2"
      [("food_category_id", req.food_category_id),
       ("region", req.region),
       ("language", req.language),
       ("format", some (req.format.getD "json"))]
      "Internal error while fetching food sub-categories"

/-- Query parameters of `GET /recipe-details` (src/index.js:284-307). -/
structure RecipeDetailsReq where
  id : Option String := none
  region : Option String := none
  format : Option String := none
deriving Repr, DecidableEq

/-- Handler of `GET /recipe-details`: 400 on a falsy `id`, otherwise proxy to
`recipe/v2` with `id` renamed to `recipe_id`. -/
def recipeDetailsHandler (st : TokenCache) (env : Env) (req : RecipeDetailsReq) : HandlerRun :=
  if ¬ truthyStr req.id then reject400 st "Missing recipe id (?id=)"
  else
    restTryBlock st env "recipe/v2"
      [("recipe_id", req.id),
       ("region", req.region),
       ("format", some (req.format.getD "json"))]
      "Internal error while getting recipe details"

/-- Query parameters of `GET /search-recipes` (src/index.js:309-362); the
dotted upstream names (`calories.from`, ...) correspond to the aliased
destructured locals of the source. -/
structure SearchRecipesReq where
  q : Option String := none
  recipe_types : Option String := none
  recipe_types_matchall : Option String := none
  must_have_images : Option String := none
  caloriesFrom : Option String := none
  caloriesTo : Option String := none
  carbFrom : Option String := none
  carbTo : Option String := none
  proteinFrom : Option String := none
  proteinTo : Option String := none
  fatFrom : Option String := none
  fatTo : Option String := none
  prepTimeFrom : Option String := none
  prepTimeTo : Option String := none
  sort_by : Option String := none
  page : Option String := none
  max_results : Option String := none
  region : Option String := none
  format : Option String := none
deriving Repr, DecidableEq

/-- Handler of `GET /search-recipes`: performs no validation of `q` (an
omitted `q` simply leaves `search_expression` unset), caps `max_results` at
50 (default 20) and proxies to `recipes/search/v3`. -/
def searchRecipesHandler (st : TokenCache) (env : Env) (req : SearchRecipesReq) : HandlerRun :=
  let cappedMaxResults := min (numberOrDefault req.max_results 20) 50
  restTryBlock st env "recipes/search/v3"
    [("search_expression", req.q),
     ("recipe_types", req.recipe_types),
     ("recipe_types_matchall", req.recipe_types_matchall),
     ("must_have_images", req.must_have_images),
     ("calories.from", req.caloriesFrom),
     ("calories.to", req.caloriesTo),
     ("carb_percentage.from", req.carbFrom),
     ("carb_percentage.to", req.carbTo),
     ("protein_percentage.from", req.proteinFrom),
     ("protein_percentage.to", req.proteinTo),
     ("fat_percentage.from", req.fatFrom),
     ("fat_percentage.to", req.fatTo),
     ("prep_time.from", req.prepTimeFrom),
     ("prep_time.to", req.prepTimeTo),
     ("sort_by", req.sort_by),
     ("page_number", some (req.page.getD "0")),
     ("max_results", some (toString cappedMaxResults)),
     ("region", req.region),
     ("format", some (req.format.getD "json"))]
    "Internal error while searching recipes"

/-- Query parameters of `GET /recipe-types` (src/index.js:364-377). -/
structure RecipeTypesReq where
  format : Option String := none
deriving Repr, DecidableEq

/-- Handler of `GET /recipe-types`: no required parameter; proxy to
`recipe-types/v2`. -/
def recipeTypesHandler (st : TokenCache) (env : Env) (req : RecipeTypesReq) : HandlerRun :=
  restTryBlock st env "recipe-types/v2"
    [("format", some (req.format.getD "json"))]
    "Internal error while fetching recipe types"

/-- JSON body of `POST /nlp` (src/index.js:379-417). -/
structure NlpReq where
  user_input : Option JsValue := none
  include_food_data : Option JsValue := none
  eaten_foods : Option JsValue := none
  region : Option JsValue := none
  language : Option JsValue := none
deriving Repr, DecidableEq

/-- Handler of `POST /nlp`: 400 when `user_input` is falsy or not a string,
otherwise POST the body to `natural-language-processing/v1` and relay. -/
def nlpHandler (st : TokenCache) (env : Env) (req : NlpReq) : HandlerRun :=
  if ¬ jsTruthy req.user_input ∨ ¬ isStringVal req.user_input then
    reject400 st "Missing or invalid user_input (required)"
  else
    postTryBlock st env "natural-language-processing/v1"
      [("user_input", req.user_input),
       ("include_food_data", req.include_food_data),
       ("eaten_foods", req.eaten_foods),
       ("region", req.region),
       ("language", req.language)]
      "Internal error while processing natural language input"

/-- JSON body of `POST /image-recognition` (src/index.js:419-457). -/
structure ImageRecognitionReq where
  image_b64 : Option JsValue := none
  include_food_data : Option JsValue := none
  eaten_foods : Option JsValue := none
  region : Option JsValue := none
  language : Option JsValue := none
deriving Repr, DecidableEq

/-- Handler of `POST /image-recognition`: 400 when `image_b64` is falsy or not
a string, otherwise POST the body to `image-recognition/v2` and relay. -/
def imageRecognitionHandler (st : TokenCache) (env : Env) (req : ImageRecognitionReq) :
    HandlerRun :=
  if ¬ jsTruthy req.image_b64 ∨ ¬ isStringVal req.image_b64 then
    reject400 st "Missing or invalid image_b64 (Base64 string required)"
  else
    postTryBlock st env "image-recognition/v2"
      [("image_b64", req.image_b64),
       ("include_food_data", req.include_food_data),
       ("eaten_foods", req.eaten_foods),
       ("region", req.region),
       ("language", req.language)]
      "Internal error while processing image"

end TokenAuthProxy

namespace TokenAuthProxy

/-- **C1.** A truthy cached token with `now` strictly before the stored expiry
is returned as-is: zero OAuth calls and the cache (`cachedToken`,
`tokenExpiresAt`) left unchanged. -/
theorem getAccessToken_cache_hit (st : TokenCache) (now : Int) (oauth : OAuthResponse)
    (t : String) (hc : st.cachedToken = some t) (ht : t ≠ "")
    (hnow : now < st.tokenExpiresAt) :
    getAccessToken st now oauth = { result := .ok t, cache := st, oauthCalls := 0 } := by
  simp [getAccessToken, truthyStr, hc, ht, hnow]

/-- Concrete instance of `getAccessToken_cache_hit`. -/
theorem getAccessToken_cache_hit_witness :
    getAccessToken ⟨some "tok", 1000⟩ 500 ⟨500, "boom", "x", 0⟩
      = { result := .ok "tok", cache := ⟨some "tok", 1000⟩, oauthCalls := 0 } :=
  getAccessToken_cache_hit ⟨some "tok", 1000⟩ 500 ⟨500, "boom", "x", 0⟩ "tok"
    rfl (by decide) (by decide)

/-- **C2.** On a cache miss (no truthy cached token, or `now` at/past the
expiry) exactly one OAuth POST is made, and when that response is ok the
returned `access_token` becomes the cached token, the expiry becomes
`now + expires_in * 1000 - 10000` (10-second safety margin), and the token
is returned. -/
theorem getAccessToken_cache_miss_success (st : TokenCache) (now : Int)
    (oauth : OAuthResponse)
    (hmiss : ¬ (truthyStr st.cachedToken = true ∧ now < st.tokenExpiresAt))
    (hok : responseOk oauth.status = true) :
    getAccessToken st now oauth
      = { result := .ok oauth.access_token
          cache := { cachedToken := some oauth.access_token
                     tokenExpiresAt := now + oauth.expires_in * 1000 - 10000 }
          oauthCalls := 1 } := by
  rw [getAccessToken, if_neg, if_pos hok]
  simp only [Bool.and_eq_true, decide_eq_true_eq]
  exact hmiss

/-- Concrete instance of `getAccessToken_cache_miss_success`. -/
theorem getAccessToken_cache_miss_success_witness :
    getAccessToken ⟨none, 0⟩ 5000 ⟨200, "", "newtok", 3600⟩
      = { result := .ok "newtok", cache := ⟨some "newtok", 5000 + 3600 * 1000 - 10000⟩,
          oauthCalls := 1 } :=
  getAccessToken_cache_miss_success ⟨none, 0⟩ 5000 ⟨200, "", "newtok", 3600⟩
    (by simp [truthyStr]) (by decide)

/-- **C3.** `getAccessToken` throws exactly when a refresh is needed and the
OAuth endpoint returns a non-success status, and the thrown error message
contains the upstream status; in every other case it returns a token string. -/
theorem getAccessToken_error_contract (st : TokenCache) (now : Int)
    (oauth : OAuthResponse) :
    (¬ (truthyStr st.cachedToken = true ∧ now < st.tokenExpiresAt) →
       responseOk oauth.status = false →
       ∃ pre post, (getAccessToken st now oauth).result
         = .error (pre ++ toString oauth.status ++ post))
    ∧ ((truthyStr st.cachedToken = true ∧ now < st.tokenExpiresAt)
         ∨ responseOk oauth.status = true →
       ∃ t, (getAccessToken st now oauth).result = .ok t) := by
  constructor
  · intro hmiss hbad
    refine ⟨"Failed to fetch token: ", " " ++ oauth.errText, ?_⟩
    rw [getAccessToken, if_neg, if_neg (by simp [hbad])]
    · simp [String.append_assoc]
    · simp only [Bool.and_eq_true, decide_eq_true_eq]
      exact hmiss
  · intro hcase
    by_cases hhit : truthyStr st.cachedToken = true ∧ now < st.tokenExpiresAt
    · refine ⟨st.cachedToken.getD "", ?_⟩
      rw [getAccessToken, if_pos (by simp [hhit.1, hhit.2])]
    · refine ⟨oauth.access_token, ?_⟩
      have hok : responseOk oauth.status = true := hcase.resolve_left hhit
      rw [getAccessToken, if_neg, if_pos hok]
      simp only [Bool.and_eq_true, decide_eq_true_eq]
      exact hhit

/-- Concrete instance of `getAccessToken_error_contract`: a 401 rejection on a
cold cache throws an error whose message contains the status 401. -/
theorem getAccessToken_error_contract_witness :
    ∃ pre post, (getAccessToken ⟨none, 0⟩ 7 ⟨401, "bad credentials", "", 0⟩).result
      = .error (pre ++ toString (401 : Nat) ++ post) :=
  (getAccessToken_error_contract ⟨none, 0⟩ 7 ⟨401, "bad credentials", "", 0⟩).1
    (by simp [truthyStr]) (by decide)

/-- **C9.** If a refresh is triggered and the OAuth endpoint answers with a
non-success status, `getAccessToken` throws without mutating the cache:
`cachedToken` and `tokenExpiresAt` are exactly what they were before. -/
theorem getAccessToken_failed_refresh_preserves_cache (st : TokenCache) (now : Int)
    (oauth : OAuthResponse)
    (hmiss : ¬ (truthyStr st.cachedToken = true ∧ now < st.tokenExpiresAt))
    (hbad : responseOk oauth.status = false) :
    (∃ e, (getAccessToken st now oauth).result = .error e)
    ∧ (getAccessToken st now oauth).cache = st := by
  rw [getAccessToken, if_neg, if_neg (by simp [hbad])]
  · exact ⟨⟨_, rfl⟩, rfl⟩
  · simp only [Bool.and_eq_true, decide_eq_true_eq]
    exact hmiss

/-- Concrete instance of `getAccessToken_failed_refresh_preserves_cache`. -/
theorem getAccessToken_failed_refresh_preserves_cache_witness :
    (∃ e, (getAccessToken ⟨some "old", 100⟩ 200 ⟨503, "down", "", 0⟩).result = .error e)
    ∧ (getAccessToken ⟨some "old", 100⟩ 200 ⟨503, "down", "", 0⟩).cache
        = ⟨some "old", 100⟩ :=
  getAccessToken_failed_refresh_preserves_cache ⟨some "old", 100⟩ 200 ⟨503, "down", "", 0⟩
    (by simp) (by decide)

/-! Helper lemmas about the shared try/catch blocks and the parameter list. -/

theorem restTryBlock_relay (st : TokenCache) (env : Env) (path : String)
    (query : List (String × Option String)) (msg : String) (s : Nat) (d : String)
    (c : UpstreamRequest) (hup : env.upstream = .ok s d)
    (hcall : (restTryBlock st env path query msg).call = some c) :
    (restTryBlock st env path query msg).status = s
      ∧ (restTryBlock st env path query msg).body = .json d := by
  rcases h : (getAccessToken st env.now env.oauth).result with e | t
  · simp [restTryBlock, fatsecretRestRequest, h] at hcall
  · simp [restTryBlock, fatsecretRestRequest, h, hup]

theorem restTryBlock_exnCase (st : TokenCache) (env : Env) (path : String)
    (query : List (String × Option String)) (msg : String) (e : String)
    (c : UpstreamRequest) (hup : env.upstream = .exn e)
    (hcall : (restTryBlock st env path query msg).call = some c) :
    (restTryBlock st env path query msg).status = 500
      ∧ (restTryBlock st env path query msg).body = .errorObj msg
      ∧ (restTryBlock st env path query msg).logged = some e := by
  rcases h : (getAccessToken st env.now env.oauth).result with e' | t
  · simp [restTryBlock, fatsecretRestRequest, h] at hcall
  · simp [restTryBlock, fatsecretRestRequest, h, hup]

theorem restTryBlock_call_inv (st : TokenCache) (env : Env) (path : String)
    (query : List (String × Option String)) (msg : String) (c : UpstreamRequest)
    (hcall : (restTryBlock st env path query msg).call = some c) :
    c = { path := path, params := setDefinedParams query } := by
  rcases h : (getAccessToken st env.now env.oauth).result with e | t
  · simp [restTryBlock, fatsecretRestRequest, h] at hcall
  · rcases hup : env.upstream with ⟨s, d⟩ | e <;>
      simp [restTryBlock, fatsecretRestRequest, h, hup] at hcall <;>
      exact hcall.symm

theorem restTryBlock_call_of_token (st : TokenCache) (env : Env) (path : String)
    (query : List (String × Option String)) (msg : String) (tok : String)
    (htok : (getAccessToken st env.now env.oauth).result = .ok tok) :
    (restTryBlock st env path query msg).call
      = some { path := path, params := setDefinedParams query } := by
  rcases hup : env.upstream with ⟨s, d⟩ | e <;>
    simp [restTryBlock, fatsecretRestRequest, htok, hup]

theorem postTryBlock_relay (st : TokenCache) (env : Env) (path : String)
    (bodyFields : List (String × Option JsValue)) (msg : String) (s : Nat) (d : String)
    (c : UpstreamRequest) (hup : env.upstream = .ok s d)
    (hcall : (postTryBlock st env path bodyFields msg).call = some c) :
    (postTryBlock st env path bodyFields msg).status = s
      ∧ (postTryBlock st env path bodyFields msg).body = .json d := by
  rcases h : (getAccessToken st env.now env.oauth).result with e | t
  · simp [postTryBlock, h] at hcall
  · simp [postTryBlock, h, hup]

theorem postTryBlock_exnCase (st : TokenCache) (env : Env) (path : String)
    (bodyFields : List (String × Option JsValue)) (msg : String) (e : String)
    (c : UpstreamRequest) (hup : env.upstream = .exn e)
    (hcall : (postTryBlock st env path bodyFields msg).call = some c) :
    (postTryBlock st env path bodyFields msg).status = 500
      ∧ (postTryBlock st env path bodyFields msg).body = .errorObj msg
      ∧ (postTryBlock st env path bodyFields msg).logged = some e := by
  rcases h : (getAccessToken st env.now env.oauth).result with e' | t
  · simp [postTryBlock, h] at hcall
  · simp [postTryBlock, h, hup]

theorem lookup_setDefinedParams_ne (k k' : String) (v : Option String)
    (rest : List (String × Option String)) (h : (k == k') = false) :
    List.lookup k (setDefinedParams ((k', v) :: rest))
      = List.lookup k (setDefinedParams rest) := by
  cases v <;> simp [setDefinedParams, List.lookup, h]

theorem lookup_setDefinedParams_here (k : String) (v : String)
    (rest : List (String × Option String)) :
    List.lookup k (setDefinedParams ((k, some v) :: rest)) = some v := by
  simp [setDefinedParams, List.lookup]

/-- **C6.** Whenever an inbound request's upstream call is issued and yields a
JSON response, the handler relays the upstream status code and JSON body
verbatim to the client (non-2xx statuses such as 404 included), for every
endpoint of the proxy; it is never converted to a 500. -/
theorem upstream_response_relayed :
    (∀ (st : TokenCache) (env : Env) (req : SearchFoodsReq) (s : Nat) (d : String)
       (c : UpstreamRequest), env.upstream = .ok s d →
       (searchFoodsHandler st env req).call = some c →
       (searchFoodsHandler st env req).status = s
         ∧ (searchFoodsHandler st env req).body = .json d)
  ∧ (∀ (st : TokenCache) (env : Env) (req : AutocompleteFoodsReq) (s : Nat) (d : String)
       (c : UpstreamRequest), env.upstream = .ok s d →
       (autocompleteFoodsHandler st env req).call = some c →
       (autocompleteFoodsHandler st env req).status = s
         ∧ (autocompleteFoodsHandler st env req).body = .json d)
  ∧ (∀ (st : TokenCache) (env : Env) (req : FindFoodByBarcodeReq) (s : Nat) (d : String)
       (c : UpstreamRequest), env.upstream = .ok s d →
       (findFoodByBarcodeHandler st env req).call = some c →
       (findFoodByBarcodeHandler st env req).status = s
         ∧ (findFoodByBarcodeHandler st env req).body = .json d)
  ∧ (∀ (st : TokenCache) (env : Env) (req : FoodDetailsReq) (s : Nat) (d : String)
       (c : UpstreamRequest), env.upstream = .ok s d →
       (foodDetailsHandler st env req).call = some c →
       (foodDetailsHandler st env req).status = s
         ∧ (foodDetailsHandler st env req).body = .json d)
  ∧ (∀ (st : TokenCache) (env : Env) (req : FoodBrandsReq) (s : Nat) (d : String)
       (c : UpstreamRequest), env.upstream = .ok s d →
       (foodBrandsHandler st env req).call = some c →
       (foodBrandsHandler st env req).status = s
         ∧ (foodBrandsHandler st env req).body = .json d)
  ∧ (∀ (st : TokenCache) (env : Env) (req : FoodCategoriesReq) (s : Nat) (d : String)
       (c : UpstreamRequest), env.upstream = .ok s d →
       (foodCategoriesHandler st env req).call = some c →
       (foodCategoriesHandler st env req).status = s
         ∧ (foodCategoriesHandler st env req).body = .json d)
  ∧ (∀ (st : TokenCache) (env : Env) (req : FoodSubCategoriesReq) (s : Nat) (d : String)
       (c : UpstreamRequest), env.upstream = .ok s d →
       (foodSubCategoriesHandler st env req).call = some c →
       (foodSubCategoriesHandler st env req).status = s
         ∧ (foodSubCategoriesHandler st env req).body = .json d)
  ∧ (∀ (st : TokenCache) (env : Env) (req : RecipeDetailsReq) (s : Nat) (d : String)
       (c : UpstreamRequest), env.upstream = .ok s d →
       (recipeDetailsHandler st env req).call = some c →
       (recipeDetailsHandler st env req).status = s
         ∧ (recipeDetailsHandler st env req).body = .json d)
  ∧ (∀ (st : TokenCache) (env : Env) (req : SearchRecipesReq) (s : Nat) (d : String)
       (c : UpstreamRequest), env.upstream = .ok s d →
       (searchRecipesHandler st env req).call = some c →
       (searchRecipesHandler st env req).status = s
         ∧ (searchRecipesHandler st env req).body = .json d)
  ∧ (∀ (st : TokenCache) (env : Env) (req : RecipeTypesReq) (s : Nat) (d : String)
       (c : UpstreamRequest), env.upstream = .ok s d →
       (recipeTypesHandler st env req).call = some c →
       (recipeTypesHandler st env req).status = s
         ∧ (recipeTypesHandler st env req).body = .json d)
  ∧ (∀ (st : TokenCache) (env : Env) (req : NlpReq) (s : Nat) (d : String)
       (c : UpstreamRequest), env.upstream = .ok s d →
       (nlpHandler st env req).call = some c →
       (nlpHandler st env req).status = s ∧ (nlpHandler st env req).body = .json d)
  ∧ (∀ (st : TokenCache) (env : Env) (req : ImageRecognitionReq) (s : Nat) (d : String)
       (c : UpstreamRequest), env.upstream = .ok s d →
       (imageRecognitionHandler st env req).call = some c →
       (imageRecognitionHandler st env req).status = s
         ∧ (imageRecognitionHandler st env req).body = .json d) := by
  refine ⟨?_, ?_, ?_, ?_, ?_, ?_, ?_, ?_, ?_, ?_, ?_, ?_⟩
  · intro st env req s d c hup hcall
    by_cases h : ¬ truthyStr req.q
    · rw [searchFoodsHandler, if_pos h] at hcall
      simp [reject400] at hcall
    · rw [searchFoodsHandler, if_neg h] at hcall ⊢
      exact restTryBlock_relay _ _ _ _ _ _ _ _ hup hcall
  · intro st env req s d c hup hcall
    by_cases h : ¬ truthyStr req.q
    · rw [autocompleteFoodsHandler, if_pos h] at hcall
      simp [reject400] at hcall
    · rw [autocompleteFoodsHandler, if_neg h] at hcall ⊢
      exact restTryBlock_relay _ _ _ _ _ _ _ _ hup hcall
  · intro st env req s d c hup hcall
    by_cases h : ¬ truthyStr req.barcode ∨ (req.barcode.getD "").length ≠ 13
    · rw [findFoodByBarcodeHandler, if_pos h] at hcall
      simp [reject400] at hcall
    · rw [findFoodByBarcodeHandler, if_neg h] at hcall ⊢
      exact restTryBlock_relay _ _ _ _ _ _ _ _ hup hcall
  · intro st env req s d c hup hcall
    by_cases h : ¬ truthyStr req.id
    · rw [foodDetailsHandler, if_pos h] at hcall
      simp [reject400] at hcall
    · rw [foodDetailsHandler, if_neg h] at hcall ⊢
      exact restTryBlock_relay _ _ _ _ _ _ _ _ hup hcall
  · intro st env req s d c hup hcall
    by_cases h : ¬ truthyStr req.starts_with
    · rw [foodBrandsHandler, if_pos h] at hcall
      simp [reject400] at hcall
    · rw [foodBrandsHandler, if_neg h] at hcall ⊢
      exact restTryBlock_relay _ _ _ _ _ _ _ _ hup hcall
  · intro st env req s d c hup hcall
    rw [foodCategoriesHandler] at hcall ⊢
    exact restTryBlock_relay _ _ _ _ _ _ _ _ hup hcall
  · intro st env req s d c hup hcall
    by_cases h : ¬ truthyStr req.food_category_id
    · rw [foodSubCategoriesHandler, if_pos h] at hcall
      simp [reject400] at hcall
    · rw [foodSubCategoriesHandler, if_neg h] at hcall ⊢
      exact restTryBlock_relay _ _ _ _ _ _ _ _ hup hcall
  · intro st env req s d c hup hcall
    by_cases h : ¬ truthyStr req.id
    · rw [recipeDetailsHandler, if_pos h] at hcall
      simp [reject400] at hcall
    · rw [recipeDetailsHandler, if_neg h] at hcall ⊢
      exact restTryBlock_relay _ _ _ _ _ _ _ _ hup hcall
  · intro st env req s d c hup hcall
    rw [searchRecipesHandler] at hcall ⊢
    exact restTryBlock_relay _ _ _ _ _ _ _ _ hup hcall
  · intro st env req s d c hup hcall
    rw [recipeTypesHandler] at hcall ⊢
    exact restTryBlock_relay _ _ _ _ _ _ _ _ hup hcall
  · intro st env req s d c hup hcall
    by_cases h : ¬ jsTruthy req.user_input ∨ ¬ isStringVal req.user_input
    · rw [nlpHandler, if_pos h] at hcall
      simp [reject400] at hcall
    · rw [nlpHandler, if_neg h] at hcall ⊢
      exact postTryBlock_relay _ _ _ _ _ _ _ _ hup hcall
  · intro st env req s d c hup hcall
    by_cases h : ¬ jsTruthy req.image_b64 ∨ ¬ isStringVal req.image_b64
    · rw [imageRecognitionHandler, if_pos h] at hcall
      simp [reject400] at hcall
    · rw [imageRecognitionHandler, if_neg h] at hcall ⊢
      exact postTryBlock_relay _ _ _ _ _ _ _ _ hup hcall

/-- Concrete instance of `upstream_response_relayed`: an upstream 404 with its
body is relayed unchanged on `/search-foods`. -/
theorem upstream_response_relayed_witness :
    (searchFoodsHandler ⟨some "tok", 1000⟩ ⟨500, ⟨200, "", "t", 60⟩, .ok 404 "notfound"⟩
        { q := some "apple" }).status = 404
    ∧ (searchFoodsHandler ⟨some "tok", 1000⟩ ⟨500, ⟨200, "", "t", 60⟩, .ok 404 "notfound"⟩
        { q := some "apple" }).body = .json "notfound" :=
  upstream_response_relayed.1 ⟨some "tok", 1000⟩ ⟨500, ⟨200, "", "t", 60⟩, .ok 404 "notfound"⟩
    { q := some "apple" } 404 "notfound"
    ⟨"foods/search/v3",
     [("search_expression", "apple"), ("page_number", "0"), ("max_results", "20"),
      ("format", "json")], []⟩
    rfl (by decide)

/-- **C7.** Whenever the upstream call of an inbound request raises an
exception (network failure, JSON parse failure), the handler responds 500
with its fixed generic `{ error: ... }` body — the same constant for every
exception, so the original error never reaches the client — and the original
error is logged via `console.error`.  Stated for every endpoint handler. -/
theorem upstream_exception_generic_500 :
    (∀ (st : TokenCache) (env : Env) (req : SearchFoodsReq) (e : String)
       (c : UpstreamRequest), env.upstream = .exn e →
       (searchFoodsHandler st env req).call = some c →
       (searchFoodsHandler st env req).status = 500
         ∧ (searchFoodsHandler st env req).body = .errorObj "Internal error while searching foods"
         ∧ (searchFoodsHandler st env req).logged = some e)
  ∧ (∀ (st : TokenCache) (env : Env) (req : AutocompleteFoodsReq) (e : String)
       (c : UpstreamRequest), env.upstream = .exn e →
       (autocompleteFoodsHandler st env req).call = some c →
       (autocompleteFoodsHandler st env req).status = 500
         ∧ (autocompleteFoodsHandler st env req).body
             = .errorObj "Internal error while autocompleting foods"
         ∧ (autocompleteFoodsHandler st env req).logged = some e)
  ∧ (∀ (st : TokenCache) (env : Env) (req : FindFoodByBarcodeReq) (e : String)
       (c : UpstreamRequest), env.upstream = .exn e →
       (findFoodByBarcodeHandler st env req).call = some c →
       (findFoodByBarcodeHandler st env req).status = 500
         ∧ (findFoodByBarcodeHandler st env req).body
             = .errorObj "Internal error while finding food by barcode"
         ∧ (findFoodByBarcodeHandler st env req).logged = some e)
  ∧ (∀ (st : TokenCache) (env : Env) (req : FoodDetailsReq) (e : String)
       (c : UpstreamRequest), env.upstream = .exn e →
       (foodDetailsHandler st env req).call = some c →
       (foodDetailsHandler st env req).status = 500
         ∧ (foodDetailsHandler st env req).body
             = .errorObj "Internal error while getting food details"
         ∧ (foodDetailsHandler st env req).logged = some e)
  ∧ (∀ (st : TokenCache) (env : Env) (req : FoodBrandsReq) (e : String)
       (c : UpstreamRequest), env.upstream = .exn e →
       (foodBrandsHandler st env req).call = some c →
       (foodBrandsHandler st env req).status = 500
         ∧ (foodBrandsHandler st env req).body
             = .errorObj "Internal error while fetching food brands"
         ∧ (foodBrandsHandler st env req).logged = some e)
  ∧ (∀ (st : TokenCache) (env : Env) (req : FoodCategoriesReq) (e : String)
       (c : UpstreamRequest), env.upstream = .exn e →
       (foodCategoriesHandler st env req).call = some c →
       (foodCategoriesHandler st env req).status = 500
         ∧ (foodCategoriesHandler st env req).body
             = .errorObj "Internal error while fetching food categories"
         ∧ (foodCategoriesHandler st env req).logged = some e)
  ∧ (∀ (st : TokenCache) (env : Env) (req : FoodSubCategoriesReq) (e : String)
       (c : UpstreamRequest), env.upstream = .exn e →
       (foodSubCategoriesHandler st env req).call = some c →
       (foodSubCategoriesHandler st env req).status = 500
         ∧ (foodSubCategoriesHandler st env req).body
             = .errorObj "Internal error while fetching food sub-categories"
         ∧ (foodSubCategoriesHandler st env req).logged = some e)
  ∧ (∀ (st : TokenCache) (env : Env) (req : RecipeDetailsReq) (e : String)
       (c : UpstreamRequest), env.upstream = .exn e →
       (recipeDetailsHandler st env req).call = some c →
       (recipeDetailsHandler st env req).status = 500
         ∧ (recipeDetailsHandler st env req).body
             = .errorObj "Internal error while getting recipe details"
         ∧ (recipeDetailsHandler st env req).logged = some e)
  ∧ (∀ (st : TokenCache) (env : Env) (req : SearchRecipesReq) (e : String)
       (c : UpstreamRequest), env.upstream = .exn e →
       (searchRecipesHandler st env req).call = some c →
       (searchRecipesHandler st env req).status = 500
         ∧ (searchRecipesHandler st env req).body
             = .errorObj "Internal error while searching recipes"
         ∧ (searchRecipesHandler st env req).logged = some e)
  ∧ (∀ (st : TokenCache) (env : Env) (req : RecipeTypesReq) (e : String)
       (c : UpstreamRequest), env.upstream = .exn e →
       (recipeTypesHandler st env req).call = some c →
       (recipeTypesHandler st env req).status = 500
         ∧ (recipeTypesHandler st env req).body
             = .errorObj "Internal error while fetching recipe types"
         ∧ (recipeTypesHandler st env req).logged = some e)
  ∧ (∀ (st : TokenCache) (env : Env) (req : NlpReq) (e : String)
       (c : UpstreamRequest), env.upstream = .exn e →
       (nlpHandler st env req).call = some c →
       (nlpHandler st env req).status = 500
         ∧ (nlpHandler st env req).body
             = .errorObj "Internal error while processing natural language input"
         ∧ (nlpHandler st env req).logged = some e)
  ∧ (∀ (st : TokenCache) (env : Env) (req : ImageRecognitionReq) (e : String)
       (c : UpstreamRequest), env.upstream = .exn e →
       (imageRecognitionHandler st env req).call = some c →
       (imageRecognitionHandler st env req).status = 500
         ∧ (imageRecognitionHandler st env req).body
             = .errorObj "Internal error while processing image"
         ∧ (imageRecognitionHandler st env req).logged = some e) := by
  refine ⟨?_, ?_, ?_, ?_, ?_, ?_, ?_, ?_, ?_, ?_, ?_, ?_⟩
  · intro st env req e c hup hcall
    by_cases h : ¬ truthyStr req.q
    · rw [searchFoodsHandler, if_pos h] at hcall
      simp [reject400] at hcall
    · rw [searchFoodsHandler, if_neg h] at hcall ⊢
      exact restTryBlock_exnCase _ _ _ _ _ _ _ hup hcall
  · intro st env req e c hup hcall
    by_cases h : ¬ truthyStr req.q
    · rw [autocompleteFoodsHandler, if_pos h] at hcall
      simp [reject400] at hcall
    · rw [autocompleteFoodsHandler, if_neg h] at hcall ⊢
      exact restTryBlock_exnCase _ _ _ _ _ _ _ hup hcall
  · intro st env req e c hup hcall
    by_cases h : ¬ truthyStr req.barcode ∨ (req.barcode.getD "").length ≠ 13
    · rw [findFoodByBarcodeHandler, if_pos h] at hcall
      simp [reject400] at hcall
    · rw [findFoodByBarcodeHandler, if_neg h] at hcall ⊢
      exact restTryBlock_exnCase _ _ _ _ _ _ _ hup hcall
  · intro st env req e c hup hcall
    by_cases h : ¬ truthyStr req.id
    · rw [foodDetailsHandler, if_pos h] at hcall
      simp [reject400] at hcall
    · rw [foodDetailsHandler, if_neg h] at hcall ⊢
      exact restTryBlock_exnCase _ _ _ _ _ _ _ hup hcall
  · intro st env req e c hup hcall
    by_cases h : ¬ truthyStr req.starts_with
    · rw [foodBrandsHandler, if_pos h] at hcall
      simp [reject400] at hcall
    · rw [foodBrandsHandler, if_neg h] at hcall ⊢
      exact restTryBlock_exnCase _ _ _ _ _ _ _ hup hcall
  · intro st env req e c hup hcall
    rw [foodCategoriesHandler] at hcall ⊢
    exact restTryBlock_exnCase _ _ _ _ _ _ _ hup hcall
  · intro st env req e c hup hcall
    by_cases h : ¬ truthyStr req.food_category_id
    · rw [foodSubCategoriesHandler, if_pos h] at hcall
      simp [reject400] at hcall
    · rw [foodSubCategoriesHandler, if_neg h] at hcall ⊢
      exact restTryBlock_exnCase _ _ _ _ _ _ _ hup hcall
  · intro st env req e c hup hcall
    by_cases h : ¬ truthyStr req.id
    · rw [recipeDetailsHandler, if_pos h] at hcall
      simp [reject400] at hcall
    · rw [recipeDetailsHandler, if_neg h] at hcall ⊢
      exact restTryBlock_exnCase _ _ _ _ _ _ _ hup hcall
  · intro st env req e c hup hcall
    rw [searchRecipesHandler] at hcall ⊢
    exact restTryBlock_exnCase _ _ _ _ _ _ _ hup hcall
  · intro st env req e c hup hcall
    rw [recipeTypesHandler] at hcall ⊢
    exact restTryBlock_exnCase _ _ _ _ _ _ _ hup hcall
  · intro st env req e c hup hcall
    by_cases h : ¬ jsTruthy req.user_input ∨ ¬ isStringVal req.user_input
    · rw [nlpHandler, if_pos h] at hcall
      simp [reject400] at hcall
    · rw [nlpHandler, if_neg h] at hcall ⊢
      exact postTryBlock_exnCase _ _ _ _ _ _ _ hup hcall
  · intro st env req e c hup hcall
    by_cases h : ¬ jsTruthy req.image_b64 ∨ ¬ isStringVal req.image_b64
    · rw [imageRecognitionHandler, if_pos h] at hcall
      simp [reject400] at hcall
    · rw [imageRecognitionHandler, if_neg h] at hcall ⊢
      exact postTryBlock_exnCase _ _ _ _ _ _ _ hup hcall

/-- Concrete instance of `upstream_exception_generic_500`: a simulated network
failure on `/search-foods` yields the fixed generic 500 body and the original
error logged. -/
theorem upstream_exception_generic_500_witness :
    (searchFoodsHandler ⟨some "tok", 1000⟩ ⟨500, ⟨200, "", "t", 60⟩, .exn "ECONNRESET"⟩
        { q := some "apple" }).status = 500
    ∧ (searchFoodsHandler ⟨some "tok", 1000⟩ ⟨500, ⟨200, "", "t", 60⟩, .exn "ECONNRESET"⟩
        { q := some "apple" }).body = .errorObj "Internal error while searching foods"
    ∧ (searchFoodsHandler ⟨some "tok", 1000⟩ ⟨500, ⟨200, "", "t", 60⟩, .exn "ECONNRESET"⟩
        { q := some "apple" }).logged = some "ECONNRESET" :=
  upstream_exception_generic_500.1 ⟨some "tok", 1000⟩
    ⟨500, ⟨200, "", "t", 60⟩, .exn "ECONNRESET"⟩ { q := some "apple" } "ECONNRESET"
    ⟨"foods/search/v3",
     [("search_expression", "apple"), ("page_number", "0"), ("max_results", "20"),
      ("format", "json")], []⟩
    rfl (by decide)

/-- **C8 (counterexample).** `/search-recipes` performs no validation of its
query parameter: a request with `q` missing does not return 400 — here it
relays the upstream 200 — and the outbound upstream call is issued anyway. -/
theorem searchRecipes_missing_query_not_rejected :
    (searchRecipesHandler ⟨some "tok", 1000⟩
        ⟨500, ⟨200, "", "t", 60⟩, .ok 200 "results"⟩ {}).status = 200
    ∧ ((searchRecipesHandler ⟨some "tok", 1000⟩
        ⟨500, ⟨200, "", "t", 60⟩, .ok 200 "results"⟩ {}).call).isSome = true := by
  decide

/-- **C8 (amended).** Every endpoint forwarder that has a required parameter —
`/search-foods`, `/autocomplete-foods`, `/find-food-by-barcode`,
`/food-details`, `/food-brands`, `/food-sub-categories`, `/recipe-details`,
`/nlp`, `/image-recognition` — validates it before obtaining a token or
issuing any outbound call: on a failed validation the response is the 400
error with zero OAuth calls and no upstream call (`reject400` leaves the
cache untouched).  `/search-recipes` (as well as `/food-categories` and
`/recipe-types`) performs no such validation. -/
theorem required_param_validated_before_outbound :
    (∀ (st : TokenCache) (env : Env) (req : SearchFoodsReq), ¬ truthyStr req.q →
       searchFoodsHandler st env req = reject400 st "Missing search query (?q=)")
  ∧ (∀ (st : TokenCache) (env : Env) (req : AutocompleteFoodsReq), ¬ truthyStr req.q →
       autocompleteFoodsHandler st env req = reject400 st "Missing query (?q=)")
  ∧ (∀ (st : TokenCache) (env : Env) (req : FindFoodByBarcodeReq),
       ¬ truthyStr req.barcode ∨ (req.barcode.getD "").length ≠ 13 →
       findFoodByBarcodeHandler st env req
         = reject400 st "Missing or invalid 13-digit barcode (?barcode=)")
  ∧ (∀ (st : TokenCache) (env : Env) (req : FoodDetailsReq), ¬ truthyStr req.id →
       foodDetailsHandler st env req = reject400 st "Missing food id (?id=)")
  ∧ (∀ (st : TokenCache) (env : Env) (req : FoodBrandsReq), ¬ truthyStr req.starts_with →
       foodBrandsHandler st env req
         = reject400 st "Missing required parameter (?starts_with=)")
  ∧ (∀ (st : TokenCache) (env : Env) (req : FoodSubCategoriesReq),
       ¬ truthyStr req.food_category_id →
       foodSubCategoriesHandler st env req
         = reject400 st "Missing required parameter (?food_category_id=)")
  ∧ (∀ (st : TokenCache) (env : Env) (req : RecipeDetailsReq), ¬ truthyStr req.id →
       recipeDetailsHandler st env req = reject400 st "Missing recipe id (?id=)")
  ∧ (∀ (st : TokenCache) (env : Env) (req : NlpReq),
       ¬ jsTruthy req.user_input ∨ ¬ isStringVal req.user_input →
       nlpHandler st env req = reject400 st "Missing or invalid user_input (required)")
  ∧ (∀ (st : TokenCache) (env : Env) (req : ImageRecognitionReq),
       ¬ jsTruthy req.image_b64 ∨ ¬ isStringVal req.image_b64 →
       imageRecognitionHandler st env req
         = reject400 st "Missing or invalid image_b64 (Base64 string required)") := by
  refine ⟨?_, ?_, ?_, ?_, ?_, ?_, ?_, ?_, ?_⟩
  · intro st env req h
    rw [searchFoodsHandler, if_pos h]
  · intro st env req h
    rw [autocompleteFoodsHandler, if_pos h]
  · intro st env req h
    rw [findFoodByBarcodeHandler, if_pos h]
  · intro st env req h
    rw [foodDetailsHandler, if_pos h]
  · intro st env req h
    rw [foodBrandsHandler, if_pos h]
  · intro st env req h
    rw [foodSubCategoriesHandler, if_pos h]
  · intro st env req h
    rw [recipeDetailsHandler, if_pos h]
  · intro st env req h
    rw [nlpHandler, if_pos h]
  · intro st env req h
    rw [imageRecognitionHandler, if_pos h]

/-- Concrete instance of `required_param_validated_before_outbound`: a
`/search-foods` request with no `q` is rejected with 400, zero OAuth calls
and no upstream call. -/
theorem required_param_validated_before_outbound_witness :
    searchFoodsHandler ⟨none, 0⟩ ⟨500, ⟨200, "", "t", 60⟩, .ok 200 "results"⟩ {}
      = reject400 ⟨none, 0⟩ "Missing search query (?q=)" :=
  required_param_validated_before_outbound.1 ⟨none, 0⟩
    ⟨500, ⟨200, "", "t", 60⟩, .ok 200 "results"⟩ {} (by decide)

/-- **C5.** `/find-food-by-barcode` rejects a 12-digit or 14-digit barcode
with a 400 response, zero OAuth calls and no outbound call, while a 13-digit
barcode passes validation and (once a token is available) proceeds to the
upstream `food/barcode/find-by-id/v1` call. -/
theorem barcode_length_gate :
    (∀ (st : TokenCache) (env : Env) (req : FindFoodByBarcodeReq) (b : String),
       req.barcode = some b →
       b.length = 12 ∨ b.length = 14 →
       findFoodByBarcodeHandler st env req
         = reject400 st "Missing or invalid 13-digit barcode (?barcode=)")
  ∧ (∀ (st : TokenCache) (env : Env) (req : FindFoodByBarcodeReq) (b tok : String),
       req.barcode = some b → b.length = 13 →
       (getAccessToken st env.now env.oauth).result = .ok tok →
       ∃ c, (findFoodByBarcodeHandler st env req).call = some c
         ∧ c.path = "food/barcode/find-by-id/v1") := by
  constructor
  · intro st env req b hb hlen
    have h : ¬ truthyStr req.barcode ∨ (req.barcode.getD "").length ≠ 13 := by
      right
      rcases hlen with h | h <;> simp [hb, h]
    rw [findFoodByBarcodeHandler, if_pos h]
  · intro st env req b tok hb hlen htok
    have hbne : b ≠ "" := by
      intro h0
      rw [h0] at hlen
      simp at hlen
    have h : ¬ (¬ truthyStr req.barcode ∨ (req.barcode.getD "").length ≠ 13) := by
      push_neg
      refine ⟨?_, ?_⟩
      · simp [hb, truthyStr, hbne]
      · simp [hb, hlen]
    rw [findFoodByBarcodeHandler, if_neg h]
    exact ⟨_, restTryBlock_call_of_token _ _ _ _ _ _ htok, rfl⟩

/-- Concrete instances of `barcode_length_gate`: a 12-digit barcode is
rejected with 400 and no outbound call; a 13-digit one reaches the upstream
call. -/
theorem barcode_length_gate_witness :
    findFoodByBarcodeHandler ⟨some "tok", 1000⟩
        ⟨500, ⟨200, "", "t", 60⟩, .ok 200 "found"⟩ { barcode := some "123456789012" }
      = reject400 ⟨some "tok", 1000⟩ "Missing or invalid 13-digit barcode (?barcode=)"
    ∧ ∃ c, (findFoodByBarcodeHandler ⟨some "tok", 1000⟩
        ⟨500, ⟨200, "", "t", 60⟩, .ok 200 "found"⟩ { barcode := some "1234567890123" }).call
          = some c
        ∧ c.path = "food/barcode/find-by-id/v1" :=
  ⟨barcode_length_gate.1 ⟨some "tok", 1000⟩ ⟨500, ⟨200, "", "t", 60⟩, .ok 200 "found"⟩
     { barcode := some "123456789012" } "123456789012" rfl (by decide),
   barcode_length_gate.2 ⟨some "tok", 1000⟩ ⟨500, ⟨200, "", "t", 60⟩, .ok 200 "found"⟩
     { barcode := some "1234567890123" } "1234567890123" "tok" rfl (by decide) rfl⟩

/-- **C10.** The barcode validation checks only the string length, never that
the characters are digits: every 13-character `barcode` value — non-digit
characters included — passes validation, and once a token is available the
request proceeds to the upstream call with the barcode forwarded verbatim. -/
theorem barcode_validation_length_only :
    ∀ (st : TokenCache) (env : Env) (req : FindFoodByBarcodeReq) (b tok : String),
      req.barcode = some b → b.length = 13 →
      (getAccessToken st env.now env.oauth).result = .ok tok →
      ∃ c, (findFoodByBarcodeHandler st env req).call = some c
        ∧ c.path = "food/barcode/find-by-id/v1"
        ∧ List.lookup "barcode" c.params = some b := by
  intro st env req b tok hb hlen htok
  have hbne : b ≠ "" := by
    intro h0
    rw [h0] at hlen
    simp at hlen
  have h : ¬ (¬ truthyStr req.barcode ∨ (req.barcode.getD "").length ≠ 13) := by
    push_neg
    refine ⟨?_, ?_⟩
    · simp [hb, truthyStr, hbne]
    · simp [hb, hlen]
  rw [findFoodByBarcodeHandler, if_neg h, hb]
  refine ⟨_, restTryBlock_call_of_token _ _ _ _ _ _ htok, rfl, ?_⟩
  exact lookup_setDefinedParams_here "barcode" b _

/-- Concrete instance of `barcode_validation_length_only`: the 13-character
non-digit barcode `abcdefghijklm` passes validation and is forwarded
verbatim. -/
theorem barcode_validation_length_only_witness :
    ∃ c, (findFoodByBarcodeHandler ⟨some "tok", 1000⟩
        ⟨500, ⟨200, "", "t", 60⟩, .ok 200 "found"⟩ { barcode := some "abcdefghijklm" }).call
          = some c
      ∧ c.path = "food/barcode/find-by-id/v1"
      ∧ List.lookup "barcode" c.params = some "abcdefghijklm" :=
  barcode_validation_length_only ⟨some "tok", 1000⟩
    ⟨500, ⟨200, "", "t", 60⟩, .ok 200 "found"⟩ { barcode := some "abcdefghijklm" }
    "abcdefghijklm" "tok" rfl (by decide) rfl

/-- **C4.** A numeric `max_results` above the endpoint's documented cap is
clamped to the cap in the parameters sent upstream — cap 50 on
`/search-foods` and `/search-recipes`, cap 10 on `/autocomplete-foods` — and
omitted optional parameters are replaced by their defaults before the
upstream call (`page` → `page_number=0`, `max_results` → 20, `format` →
`json` on `/search-foods`). -/
theorem max_results_capped_and_defaults :
    (∀ (st : TokenCache) (env : Env) (req : SearchFoodsReq) (ms : String) (n : Int)
       (c : UpstreamRequest),
       req.max_results = some ms → jsNumber? ms = some n → 50 < n →
       (searchFoodsHandler st env req).call = some c →
       List.lookup "max_results" c.params = some "50")
  ∧ (∀ (st : TokenCache) (env : Env) (req : AutocompleteFoodsReq) (ms : String) (n : Int)
       (c : UpstreamRequest),
       req.max_results = some ms → jsNumber? ms = some n → 10 < n →
       (autocompleteFoodsHandler st env req).call = some c →
       List.lookup "max_results" c.params = some "10")
  ∧ (∀ (st : TokenCache) (env : Env) (req : SearchRecipesReq) (ms : String) (n : Int)
       (c : UpstreamRequest),
       req.max_results = some ms → jsNumber? ms = some n → 50 < n →
       (searchRecipesHandler st env req).call = some c →
       List.lookup "max_results" c.params = some "50")
  ∧ (∀ (st : TokenCache) (env : Env) (req : SearchFoodsReq) (c : UpstreamRequest),
       req.page = none → req.max_results = none → req.format = none →
       (searchFoodsHandler st env req).call = some c →
       List.lookup "page_number" c.params = some "0"
         ∧ List.lookup "max_results" c.params = some "20"
         ∧ List.lookup "format" c.params = some "json") := by
  refine ⟨?_, ?_, ?_, ?_⟩
  · intro st env req ms n c hms hn h50 hcall
    by_cases hq : ¬ truthyStr req.q
    · rw [searchFoodsHandler, if_pos hq] at hcall
      simp [reject400] at hcall
    · rw [searchFoodsHandler, if_neg hq] at hcall
      have hc := restTryBlock_call_inv _ _ _ _ _ _ hcall
      have hne : n ≠ 0 := by omega
      have hnum : numberOrDefault req.max_results 20 = n := by
        rw [hms]
        simp [numberOrDefault, hn, hne]
      have hcap : min (numberOrDefault req.max_results 20) 50 = 50 := by
        rw [hnum]
        omega
      simp [hc, hcap, lookup_setDefinedParams_ne, lookup_setDefinedParams_here]
      rfl
  · intro st env req ms n c hms hn h10 hcall
    by_cases hq : ¬ truthyStr req.q
    · rw [autocompleteFoodsHandler, if_pos hq] at hcall
      simp [reject400] at hcall
    · rw [autocompleteFoodsHandler, if_neg hq] at hcall
      have hc := restTryBlock_call_inv _ _ _ _ _ _ hcall
      have hne : n ≠ 0 := by omega
      have hnum : numberOrDefault req.max_results 4 = n := by
        rw [hms]
        simp [numberOrDefault, hn, hne]
      have hcap : min (numberOrDefault req.max_results 4) 10 = 10 := by
        rw [hnum]
        omega
      simp [hc, hcap, lookup_setDefinedParams_ne, lookup_setDefinedParams_here]
      rfl
  · intro st env req ms n c hms hn h50 hcall
    rw [searchRecipesHandler] at hcall
    have hc := restTryBlock_call_inv _ _ _ _ _ _ hcall
    have hne : n ≠ 0 := by omega
    have hnum : numberOrDefault req.max_results 20 = n := by
      rw [hms]
      simp [numberOrDefault, hn, hne]
    have hcap : min (numberOrDefault req.max_results 20) 50 = 50 := by
      rw [hnum]
      omega
    simp [hc, hcap, lookup_setDefinedParams_ne, lookup_setDefinedParams_here]
    rfl
  · intro st env req c hpage hmax hfmt hcall
    by_cases hq : ¬ truthyStr req.q
    · rw [searchFoodsHandler, if_pos hq] at hcall
      simp [reject400] at hcall
    · rw [searchFoodsHandler, if_neg hq] at hcall
      have hc := restTryBlock_call_inv _ _ _ _ _ _ hcall
      refine ⟨?_, ?_, ?_⟩
      · simp [hc, hpage, lookup_setDefinedParams_ne, lookup_setDefinedParams_here]
      · simp [hc, hmax, numberOrDefault,
              lookup_setDefinedParams_ne, lookup_setDefinedParams_here]
        rfl
      · simp [hc, hfmt, lookup_setDefinedParams_ne, lookup_setDefinedParams_here]

/-- Concrete instance of `max_results_capped_and_defaults`: requesting 100
results on `/search-foods` yields an upstream `max_results` of 50. -/
theorem max_results_capped_and_defaults_witness :
    List.lookup "max_results"
      (UpstreamRequest.mk "foods/search/v3"
        [("search_expression", "apple"), ("page_number", "0"), ("max_results", "50"),
         ("format", "json")] []).params = some "50" :=
  max_results_capped_and_defaults.1 ⟨some "tok", 1000⟩
    ⟨500, ⟨200, "", "t", 60⟩, .ok 200 "results"⟩
    { q := some "apple", max_results := some "100" } "100" 100
    (UpstreamRequest.mk "foods/search/v3"
      [("search_expression", "apple"), ("page_number", "0"), ("max_results", "50"),
       ("format", "json")] [])
    rfl (by decide) (by decide) (by decide)

end TokenAuthProxy
